import Mathlib

/-
  Shallow embedding of the FoundationDesign ACI 318M-25 pad-foundation
  analysis and design engine:
    FoundationDesign/concretedesignfunc_aci318.py
    FoundationDesign/foundationdesign_aci318.py

  Numbers are modelled by real numbers.  Python round(x, k) (rounding half
  to even) is modelled by pyRoundTo.  A Python function that can raise
  ZeroDivisionError at a division whose denominator can be zero for
  otherwise-validated inputs is modelled as an Option-returning definition
  (none = the call raises); a denominator that the constructor validation
  (assert_strictly_positive_number on the geometry) keeps nonzero is
  modelled with total real division, and the corresponding positivity
  appears as a hypothesis of the theorems about it.

  Some Python dict keys are renamed to plain field names:
    utilization_ratio      -> utilization
    demand_capacity_ratio  -> demand_over_capacity
    Vc_aspect_ratio        -> Vc_aspect
    governing case string  aspect_ratio / location / maximum
                           -> GoverningCase.aspect / .location / .maximum
    check_status string    PASS / FAIL -> CheckStatus.PASS / .FAIL
-/

noncomputable section

/-- Python round-half-to-even of a real number, as an integer. -/
def pyRound (x : ℝ) : ℤ :=
  if x - ⌊x⌋ < 1/2 then ⌊x⌋
  else if 1/2 < x - ⌊x⌋ then ⌊x⌋ + 1
  else if ⌊x⌋ % 2 = 0 then ⌊x⌋ else ⌊x⌋ + 1

/-- Python round(x, k) for k decimal digits (k a natural number). -/
def pyRoundTo (x : ℝ) (k : ℕ) : ℝ := (pyRound (x * 10 ^ k) : ℝ) / 10 ^ k

/--
  ACI 318M-25 Section 7.2.2.1 Whitney stress block factor beta1, from
  whitney_stress_block_factor in concretedesignfunc_aci318.py.
-/
def whitney_stress_block_factor (fc_prime : ℝ) : ℝ :=
  let beta1 : ℝ :=
    if fc_prime ≤ 28 then 0.85
    else if fc_prime ≤ 55 then 0.85 - 0.05 * (fc_prime - 28) / 7
    else 0.65
  max beta1 0.65

/-- Pass or fail verdict, the PASS / FAIL strings of the source. -/
inductive CheckStatus where
  | PASS
  | FAIL
deriving DecidableEq

/-- Status strings returned by flexural_design_aci318. -/
inductive FlexStatus where
  /-- the PASS string -/
  | PASS
  /-- the string FAIL - Compression reinforcement required -/
  | CompressionReinforcementRequired
  /-- the string FAIL - Exceeds maximum reinforcement ratio -/
  | ExceedsMaximumReinforcement
deriving DecidableEq

/-- Governing-case strings of punching_shear_strength_aci318. -/
inductive GoverningCase where
  /-- the string aspect_ratio -/
  | aspect
  | location
  | maximum
deriving DecidableEq

/-- A demand over capacity value that may be the float inf sentinel. -/
inductive RatioValue where
  | finite (x : ℝ)
  | infinite
deriving DecidableEq

/--
  Result dict of flexural_design_aci318.  The three branches of the source
  return dicts with different key sets, so keys absent in a branch are
  modelled as none.
-/
structure FlexResult where
  status : FlexStatus
  area_of_steel : Option ℝ
  rho_required : Option ℝ
  rho_max : Option ℝ
  compression_steel_required : Bool

/--
  ACI 318M-25 Section 7 flexural design, from flexural_design_aci318 in
  concretedesignfunc_aci318.py (source default phi = 0.9 is passed
  explicitly by callers here).  The leading guards model the
  ZeroDivisionError the source raises when a denominator is zero; past the
  guards the source never raises (math.sqrt is applied only to a
  nonnegative argument).
-/
def flexural_design_aci318 (Mu b d fc_prime fy phi : ℝ) : Option FlexResult :=
  if phi = 0 then none else
  if b * d ^ 2 = 0 then none else
  if fy = 0 then none else
  if d = 0 then none else
  if 0.85 * fc_prime = 0 then none else
  let beta1 := whitney_stress_block_factor fc_prime
  let Mn_required := Mu / phi
  let fc := fc_prime
  let Rn := Mn_required / (b * d ^ 2)
  let c_max := d / (1 + 0.005 * 200000 / (0.003 * 200000))
  let rho_max := 0.85 * beta1 * fc / fy * c_max / d
  let sqrt_term := 1 - 2 * Rn / (0.85 * fc)
  if sqrt_term < 0 then
    some { status := .CompressionReinforcementRequired,
           area_of_steel := none, rho_required := none, rho_max := none,
           compression_steel_required := true }
  else
    let rho_required := (0.85 * fc / fy) * (1 - Real.sqrt sqrt_term)
    if rho_required > rho_max then
      some { status := .ExceedsMaximumReinforcement,
             area_of_steel := none, rho_required := some rho_required,
             rho_max := some rho_max, compression_steel_required := true }
    else
      some { status := .PASS,
             area_of_steel := some (pyRoundTo (rho_required * b * d) 0),
             rho_required := some rho_required, rho_max := some rho_max,
             compression_steel_required := false }

/--
  ACI 318M-25 Section 7.6.1 minimum flexural reinforcement, from
  minimum_flexural_reinforcement_aci318 in concretedesignfunc_aci318.py.
-/
def minimum_flexural_reinforcement_aci318 (b d fc_prime fy : ℝ) : ℝ :=
  let As_min1 := 1.4 * b * d / fy
  let As_min2 := Real.sqrt fc_prime * b * d / (4 * fy)
  pyRoundTo (max As_min1 As_min2) 0

/--
  ACI 318M-25 Section 22.5 one-way shear strength, from
  one_way_shear_strength_aci318 in concretedesignfunc_aci318.py
  (lambda_factor defaults to 1 at every call site modelled here).
-/
def one_way_shear_strength_aci318 (b d fc_prime lambda_factor : ℝ) : ℝ :=
  pyRoundTo (0.17 * lambda_factor * Real.sqrt fc_prime * b * d) 0

/-- Result dict of punching_shear_strength_aci318. -/
structure PunchStrengthResult where
  Vc_governing : ℝ
  Vc_aspect : ℝ
  Vc_location : ℝ
  Vc_maximum : ℝ
  governing_case : GoverningCase

/--
  ACI 318M-25 Section 22.6 two-way (punching) shear strength, from
  punching_shear_strength_aci318 in concretedesignfunc_aci318.py.
  The governing case is selected by comparing the pre-rounding values,
  exactly as the source compares Vc == Vc1 and Vc == Vc2.
-/
def punching_shear_strength_aci318 (bo d fc_prime beta_c alpha_s lambda_factor : ℝ) :
    PunchStrengthResult :=
  let Vc1 := (2 + 4 / beta_c) * lambda_factor * Real.sqrt fc_prime * bo * d / 6
  let Vc2 := (alpha_s * d / bo + 2) * lambda_factor * Real.sqrt fc_prime * bo * d / 6
  let Vc3 := 4 * lambda_factor * Real.sqrt fc_prime * bo * d / 6
  let Vc := min Vc1 (min Vc2 Vc3)
  { Vc_governing := pyRoundTo Vc 0,
    Vc_aspect := pyRoundTo Vc1 0,
    Vc_location := pyRoundTo Vc2 0,
    Vc_maximum := pyRoundTo Vc3 0,
    governing_case :=
      if Vc = Vc1 then .aspect else if Vc = Vc2 then .location else .maximum }

/-- Result dict of critical_section_punching_aci318. -/
structure CriticalSection where
  critical_length : ℝ
  critical_width : ℝ
  perimeter : ℝ
  area : ℝ
  distance_from_face : ℝ

/--
  ACI 318M-25 Section 22.6.4.1 critical section for punching shear, from
  critical_section_punching_aci318 in concretedesignfunc_aci318.py.
-/
def critical_section_punching_aci318 (column_length column_width d : ℝ) :
    CriticalSection :=
  let b1 := column_length + d
  let b2 := column_width + d
  { critical_length := b1, critical_width := b2,
    perimeter := 2 * (b1 + b2), area := b1 * b2,
    distance_from_face := d / 2 }

/-- The claimed candidate formula Vc1 (column aspect effect), spec wording. -/
def specVc1 (bo d fc beta_c lam : ℝ) : ℝ :=
  (2 + 4 / beta_c) * lam * Real.sqrt fc * bo * d / 6

/-- The claimed candidate formula Vc2 (column location effect), spec wording. -/
def specVc2 (bo d fc alpha_s lam : ℝ) : ℝ :=
  (alpha_s * d / bo + 2) * lam * Real.sqrt fc * bo * d / 6

/-- The claimed candidate formula Vc3 (absolute cap), spec wording. -/
def specVc3 (bo d fc lam : ℝ) : ℝ :=
  4 * lam * Real.sqrt fc * bo * d / 6

/--
  State of a PadFoundationACI318 object (foundationdesign_aci318.py).
  Geometry, soil capacity, load and strength-reduction factors, the axial
  loads of the three cases, and the derived foundation loads.  The
  horizontal-load and moment fields of the source are omitted: no method
  embedded here reads them.  The constructor validates the geometry and the
  soil capacity as strictly positive; theorems that need this carry it as
  hypotheses.
-/
structure PadFoundationACI318 where
  foundation_length : ℝ
  foundation_width : ℝ
  column_length : ℝ
  column_width : ℝ
  col_pos_xdir : ℝ
  col_pos_ydir : ℝ
  soil_bearing_capacity : ℝ
  uls_strength_factor_dead : ℝ
  uls_strength_factor_live : ℝ
  uls_strength_factor_wind : ℝ
  uls_strength_factor_dead_min : ℝ
  phi_flexure : ℝ
  phi_shear : ℝ
  dead_axial_load : ℝ
  live_axial_load : ℝ
  wind_axial_load : ℝ
  foundation_self_weight : ℝ
  surcharge_load : ℝ

/-- area_of_foundation method. -/
def area_of_foundation (st : PadFoundationACI318) : ℝ :=
  st.foundation_length * st.foundation_width

/--
  foundation_loads method: recomputes the derived self weight and
  surcharge fields from thickness, soil depth above and unit weights.
-/
def foundation_loads (st : PadFoundationACI318)
    (foundation_thickness soil_depth_abv_foundation soil_unit_weight
     concrete_unit_weight : ℝ) : PadFoundationACI318 :=
  { st with
    foundation_self_weight :=
      st.foundation_length * st.foundation_width * foundation_thickness / 1e9 *
        concrete_unit_weight,
    surcharge_load :=
      st.foundation_length * st.foundation_width * soil_depth_abv_foundation / 1e9 *
        soil_unit_weight }

/-- total_force_Z_dir_service method. -/
def total_force_Z_dir_service (st : PadFoundationACI318) : ℝ :=
  st.dead_axial_load + st.live_axial_load + st.wind_axial_load +
    st.foundation_self_weight + st.surcharge_load

/--
  total_force_Z_dir_ultimate method: envelope of the four ACI 318M-25
  Section 5.3.1 combinations, returning the maximum.
-/
def total_force_Z_dir_ultimate (st : PadFoundationACI318) : ℝ :=
  let foundation_dead := st.foundation_self_weight + st.surcharge_load
  let U1 := st.uls_strength_factor_dead * (st.dead_axial_load + foundation_dead) +
            st.uls_strength_factor_live * st.live_axial_load
  let U2 := st.uls_strength_factor_dead * (st.dead_axial_load + foundation_dead) +
            st.uls_strength_factor_live * st.live_axial_load +
            0.5 * st.wind_axial_load
  let U3 := st.uls_strength_factor_dead * (st.dead_axial_load + foundation_dead) +
            st.uls_strength_factor_wind * st.wind_axial_load +
            1.0 * st.live_axial_load
  let U4 := st.uls_strength_factor_dead_min * (st.dead_axial_load + foundation_dead) +
            st.uls_strength_factor_wind * st.wind_axial_load
  max U1 (max U2 (max U3 U4))

/-- Result dict of bearing_pressure_check_service. -/
structure BearingCheckResult where
  bearing_pressure : ℝ
  allowable_pressure : ℝ
  /-- source key utilization_ratio -/
  utilization : ℝ
  check_status : CheckStatus

/-- bearing_pressure_check_service method. -/
def bearing_pressure_check_service (st : PadFoundationACI318) : BearingCheckResult :=
  let total_load := total_force_Z_dir_service st
  let foundation_area := area_of_foundation st / 1e6
  let bearing_pressure := total_load / foundation_area
  let utilization := bearing_pressure / st.soil_bearing_capacity
  { bearing_pressure := pyRoundTo bearing_pressure 2,
    allowable_pressure := st.soil_bearing_capacity,
    utilization := pyRoundTo utilization 3,
    check_status := if utilization ≤ 1.0 then .PASS else .FAIL }

/-- Result dict of punching_shear_at_critical_section. -/
structure PunchingCheckResult where
  critical_section : CriticalSection
  punching_force : ℝ
  nominal_strength : ℝ
  design_strength : ℝ
  /-- source key demand_capacity_ratio -/
  demand_over_capacity : ℝ
  check_status : CheckStatus
  governing_case : GoverningCase

/--
  punching_shear_at_critical_section method.  The source divides Vu by
  phi_Vc with no guard, so phi_Vc = 0 raises ZeroDivisionError: that case
  is modelled as none.  The other denominators (foundation area, column
  dimensions) are strictly positive by the constructor validation.
-/
def punching_shear_at_critical_section (st : PadFoundationACI318)
    (foundation_thickness fc_prime : ℝ) : Option PunchingCheckResult :=
  let d := foundation_thickness - 75 - 16 / 2
  let critical_section := critical_section_punching_aci318 st.column_length st.column_width d
  let Pu := total_force_Z_dir_ultimate st * 1000
  let critical_area := critical_section.area / 1e6
  let foundation_area := area_of_foundation st / 1e6
  let pressure := Pu / (foundation_area * 1e6)
  let load_inside_critical := pressure * critical_area * 1e6
  let Vu := Pu - load_inside_critical
  let beta_c := max st.column_length st.column_width / min st.column_length st.column_width
  let strength_results := punching_shear_strength_aci318 critical_section.perimeter d
    fc_prime beta_c 40 1
  let phi_Vc := st.phi_shear * strength_results.Vc_governing
  if phi_Vc = 0 then none else
  some { critical_section := critical_section,
         punching_force := Vu,
         nominal_strength := strength_results.Vc_governing,
         design_strength := phi_Vc,
         demand_over_capacity := pyRoundTo (Vu / phi_Vc) 3,
         check_status := if Vu ≤ phi_Vc then .PASS else .FAIL,
         governing_case := strength_results.governing_case }

/-- Result dict of the one-way shear methods. -/
structure OneWayResult where
  critical_location : ℝ
  shear_force : ℝ
  nominal_strength : ℝ
  design_strength : ℝ
  /-- source key demand_capacity_ratio; inf sentinel when phi_Vc is not positive -/
  demand_over_capacity : RatioValue
  check_status : CheckStatus

/-- one_way_shear_x_direction method (division by phi_Vc is guarded in the source). -/
def one_way_shear_x_direction (st : PadFoundationACI318)
    (foundation_thickness fc_prime : ℝ) : OneWayResult :=
  let d := foundation_thickness - 75 - 16 / 2
  let x_critical := st.col_pos_xdir + st.column_length / 2 + d
  let total_pressure := total_force_Z_dir_ultimate st
  let foundation_area := area_of_foundation st / 1e6
  let pressure := total_pressure / foundation_area
  let Vu :=
    if x_critical < st.foundation_length then
      pressure * ((st.foundation_length - x_critical) * st.foundation_width / 1e6) * 1000
    else 0
  let Vc := one_way_shear_strength_aci318 st.foundation_width d fc_prime 1
  let phi_Vc := st.phi_shear * Vc
  { critical_location := x_critical,
    shear_force := Vu,
    nominal_strength := Vc,
    design_strength := phi_Vc,
    demand_over_capacity :=
      if phi_Vc > 0 then .finite (pyRoundTo (Vu / phi_Vc) 3) else .infinite,
    check_status := if Vu ≤ phi_Vc then .PASS else .FAIL }

/-- one_way_shear_y_direction method. -/
def one_way_shear_y_direction (st : PadFoundationACI318)
    (foundation_thickness fc_prime : ℝ) : OneWayResult :=
  let d := foundation_thickness - 75 - 16 / 2
  let y_critical := st.col_pos_ydir + st.column_width / 2 + d
  let total_pressure := total_force_Z_dir_ultimate st
  let foundation_area := area_of_foundation st / 1e6
  let pressure := total_pressure / foundation_area
  let Vu :=
    if y_critical < st.foundation_width then
      pressure * ((st.foundation_width - y_critical) * st.foundation_length / 1e6) * 1000
    else 0
  let Vc := one_way_shear_strength_aci318 st.foundation_length d fc_prime 1
  let phi_Vc := st.phi_shear * Vc
  { critical_location := y_critical,
    shear_force := Vu,
    nominal_strength := Vc,
    design_strength := phi_Vc,
    demand_over_capacity :=
      if phi_Vc > 0 then .finite (pyRoundTo (Vu / phi_Vc) 3) else .infinite,
    check_status := if Vu ≤ phi_Vc then .PASS else .FAIL }

/-- Per-direction flexural summary in the design report dict. -/
structure FlexuralDirectionResult where
  /-- the dict value under area_of_steel, which is None on a failed design -/
  required_As : Option ℝ
  minimum_As : ℝ
  status : FlexStatus

/-- The dict returned by padFoundationDesignACI318. -/
structure DesignReport where
  geometry_length : ℝ
  geometry_width : ℝ
  geometry_thickness : ℝ
  geometry_area : ℝ
  material_fc : ℝ
  material_fy : ℝ
  material_cover : ℝ
  load_service : ℝ
  load_ultimate : ℝ
  bearing : BearingCheckResult
  flexural_x : FlexuralDirectionResult
  flexural_y : FlexuralDirectionResult
  punching : PunchingCheckResult
  one_way_x : OneWayResult
  one_way_y : OneWayResult
  /-- design_summary key foundation_adequate -/
  foundation_adequate : Bool

/--
  padFoundationDesignACI318: the design entry point of
  foundationdesign_aci318.py.  It first recomputes the foundation loads
  (with the source default unit weights 18 and 24), computes the flexural
  effective depths from the cover and bar diameters, runs the flexural
  designs on the placeholder moment 100e6 N.mm, then the shear checks and
  the bearing check, and assembles the report.  none models a raising
  subcall.  foundation_adequate is the source all([...]) over the bearing,
  punching and two one-way verdicts.
-/
def padFoundationDesignACI318 (fdn_analysis : PadFoundationACI318)
    (concrete_grade steel_grade foundation_thickness soil_depth_abv_foundation
     steel_cover bar_dia_x bar_dia_y : ℝ) : Option DesignReport :=
  let st := foundation_loads fdn_analysis foundation_thickness soil_depth_abv_foundation 18 24
  let d_x := foundation_thickness - steel_cover - bar_dia_x / 2
  let d_y := foundation_thickness - steel_cover - bar_dia_y - bar_dia_x / 2
  let Mu_x := 100 * 1e6
  let Mu_y := 100 * 1e6
  (flexural_design_aci318 Mu_x st.foundation_width d_x concrete_grade steel_grade 0.9).bind
    fun flexure_x =>
  (flexural_design_aci318 Mu_y st.foundation_length d_y concrete_grade steel_grade 0.9).bind
    fun flexure_y =>
  let As_min_x := minimum_flexural_reinforcement_aci318 st.foundation_width d_x
    concrete_grade steel_grade
  let As_min_y := minimum_flexural_reinforcement_aci318 st.foundation_length d_y
    concrete_grade steel_grade
  (punching_shear_at_critical_section st foundation_thickness concrete_grade).bind
    fun punching_check =>
  let one_way_x := one_way_shear_x_direction st foundation_thickness concrete_grade
  let one_way_y := one_way_shear_y_direction st foundation_thickness concrete_grade
  let bearing_check := bearing_pressure_check_service st
  some { geometry_length := st.foundation_length,
         geometry_width := st.foundation_width,
         geometry_thickness := foundation_thickness,
         geometry_area := area_of_foundation st,
         material_fc := concrete_grade,
         material_fy := steel_grade,
         material_cover := steel_cover,
         load_service := total_force_Z_dir_service st,
         load_ultimate := total_force_Z_dir_ultimate st,
         bearing := bearing_check,
         flexural_x := { required_As := flexure_x.area_of_steel,
                         minimum_As := As_min_x, status := flexure_x.status },
         flexural_y := { required_As := flexure_y.area_of_steel,
                         minimum_As := As_min_y, status := flexure_y.status },
         punching := punching_check,
         one_way_x := one_way_x,
         one_way_y := one_way_y,
         foundation_adequate :=
           decide (bearing_check.check_status = CheckStatus.PASS ∧
                   punching_check.check_status = CheckStatus.PASS ∧
                   one_way_x.check_status = CheckStatus.PASS ∧
                   one_way_y.check_status = CheckStatus.PASS) }

/--
  The worked-example analysis state of the repository (README and
  complete_design_example.py): 2500 x 2500 pad, 400 x 400 column at the
  centre, soil bearing capacity 200, default ACI factors, dead axial
  800 kN and live axial 300 kN, before foundation_loads is applied.
-/
def exampleState : PadFoundationACI318 :=
  { foundation_length := 2500, foundation_width := 2500,
    column_length := 400, column_width := 400,
    col_pos_xdir := 1250, col_pos_ydir := 1250,
    soil_bearing_capacity := 200,
    uls_strength_factor_dead := 1.2, uls_strength_factor_live := 1.6,
    uls_strength_factor_wind := 1.0, uls_strength_factor_dead_min := 0.9,
    phi_flexure := 0.9, phi_shear := 0.75,
    dead_axial_load := 800, live_axial_load := 300, wind_axial_load := 0,
    foundation_self_weight := 0, surcharge_load := 0 }

/-- The worked-example state with foundation_loads(400, 700, 18, 24) applied. -/
def exampleLoaded : PadFoundationACI318 :=
  foundation_loads exampleState 400 700 18 24

/--
  A zero-column-load variant of the example state, used to exercise the
  design pipeline and the shear checks on their own.
-/
def zeroLoadState : PadFoundationACI318 :=
  { foundation_length := 2500, foundation_width := 2500,
    column_length := 400, column_width := 400,
    col_pos_xdir := 1250, col_pos_ydir := 1250,
    soil_bearing_capacity := 200,
    uls_strength_factor_dead := 1.2, uls_strength_factor_live := 1.6,
    uls_strength_factor_wind := 1.0, uls_strength_factor_dead_min := 0.9,
    phi_flexure := 0.9, phi_shear := 0.75,
    dead_axial_load := 0, live_axial_load := 0, wind_axial_load := 0,
    foundation_self_weight := 0, surcharge_load := 0 }

/-- zeroLoadState with foundation_loads(147, 700, 18, 24) applied. -/
def thinLoaded : PadFoundationACI318 :=
  foundation_loads zeroLoadState 147 700 18 24

/-- The discriminant 1 - 2 Rn / (0.85 fc) of the flexural design, spec wording. -/
def specDisc (Mu b d fc phi : ℝ) : ℝ :=
  1 - 2 * (Mu / phi / (b * d ^ 2)) / (0.85 * fc)

/-- The required reinforcement ratio of the flexural design, spec wording. -/
def specRho (Mu b d fc fy phi : ℝ) : ℝ :=
  0.85 * fc / fy * (1 - Real.sqrt (specDisc Mu b d fc phi))

/-- The maximum tension-controlled reinforcement ratio, spec wording. -/
def specRhoMax (d fc fy : ℝ) : ℝ :=
  0.85 * whitney_stress_block_factor fc * fc / fy *
    (d / (1 + 0.005 * 200000 / (0.003 * 200000))) / d

lemma pyRound_eq_low {x : ℝ} {n : ℤ} (h1 : (n : ℝ) ≤ x) (h2 : x < n + 1/2) :
    pyRound x = n := by
  have hf : ⌊x⌋ = n := Int.floor_eq_iff.mpr ⟨h1, by push_cast; linarith⟩
  unfold pyRound
  rw [hf, if_pos (by push_cast; linarith)]

lemma pyRound_eq_high {x : ℝ} {n : ℤ} (h1 : (n : ℝ) + 1/2 < x) (h2 : x < (n : ℝ) + 1) :
    pyRound x = n + 1 := by
  have hf : ⌊x⌋ = n := Int.floor_eq_iff.mpr ⟨by linarith, by push_cast; linarith⟩
  unfold pyRound
  rw [hf, if_neg (by push_cast; linarith), if_pos (by push_cast; linarith)]

lemma pyRoundTo_eq_low {x : ℝ} {k : ℕ} {n : ℤ}
    (h1 : (n : ℝ) ≤ x * 10 ^ k) (h2 : x * 10 ^ k < n + 1/2) :
    pyRoundTo x k = n / 10 ^ k := by
  unfold pyRoundTo
  rw [pyRound_eq_low h1 h2]

lemma pyRoundTo_eq_high {x : ℝ} {k : ℕ} {n : ℤ}
    (h1 : (n : ℝ) + 1/2 < x * 10 ^ k) (h2 : x * 10 ^ k < (n : ℝ) + 1) :
    pyRoundTo x k = ((n : ℝ) + 1) / 10 ^ k := by
  unfold pyRoundTo
  rw [pyRound_eq_high h1 h2]
  push_cast
  ring

lemma whitney_low {fc : ℝ} (h : fc ≤ 28) : whitney_stress_block_factor fc = 0.85 := by
  unfold whitney_stress_block_factor
  rw [if_pos h]
  norm_num [max_eq_left]

lemma whitney_mid {fc : ℝ} (h1 : 28 < fc) (h2 : fc ≤ 55) :
    whitney_stress_block_factor fc = 0.85 - 0.05 * (fc - 28) / 7 := by
  unfold whitney_stress_block_factor
  rw [if_neg (by linarith), if_pos h2]
  exact max_eq_left (by linarith)

lemma whitney_high {fc : ℝ} (h : 55 < fc) : whitney_stress_block_factor fc = 0.65 := by
  unfold whitney_stress_block_factor
  rw [if_neg (by linarith), if_neg (by linarith)]
  norm_num [max_eq_left]

lemma whitney_ge (fc : ℝ) : 0.65 ≤ whitney_stress_block_factor fc := by
  unfold whitney_stress_block_factor
  exact le_max_right _ _

lemma whitney_le (fc : ℝ) : whitney_stress_block_factor fc ≤ 0.85 := by
  rcases le_or_lt fc 28 with h | h
  · rw [whitney_low h]
  · rcases le_or_lt fc 55 with h2 | h2
    · rw [whitney_mid h h2]; linarith
    · rw [whitney_high h2]; norm_num

lemma whitney_antitone {a b : ℝ} (hab : a ≤ b) :
    whitney_stress_block_factor b ≤ whitney_stress_block_factor a := by
  rcases le_or_lt b 28 with hb | hb
  · rw [whitney_low hb, whitney_low (le_trans hab hb)]
  · rcases le_or_lt b 55 with hb2 | hb2
    · rw [whitney_mid hb hb2]
      rcases le_or_lt a 28 with ha | ha
      · rw [whitney_low ha]; linarith
      · rw [whitney_mid ha (le_trans hab hb2)]; linarith
    · rw [whitney_high hb2]
      exact whitney_ge a

lemma pyRoundTo_eval_low (x t r : ℝ) (k : ℕ) (n : ℤ) (hx : x = t)
    (h1 : (n : ℝ) ≤ t * 10 ^ k) (h2 : t * 10 ^ k < n + 1/2)
    (hr : (n : ℝ) / 10 ^ k = r) : pyRoundTo x k = r := by
  subst hx
  subst hr
  exact pyRoundTo_eq_low h1 h2

lemma pyRoundTo_eval_high (x t r : ℝ) (k : ℕ) (n : ℤ) (hx : x = t)
    (h1 : (n : ℝ) + 1/2 < t * 10 ^ k) (h2 : t * 10 ^ k < (n : ℝ) + 1)
    (hr : ((n : ℝ) + 1) / 10 ^ k = r) : pyRoundTo x k = r := by
  subst hx
  subst hr
  exact pyRoundTo_eq_high h1 h2

lemma sqrt_twentyfive : Real.sqrt 25 = 5 := by
  rw [show (25 : ℝ) = 5 ^ 2 by norm_num, Real.sqrt_sq (by norm_num : (0:ℝ) ≤ 5)]

lemma max4_choice (a b c d : ℝ) :
    max a (max b (max c d)) = a ∨ max a (max b (max c d)) = b ∨
    max a (max b (max c d)) = c ∨ max a (max b (max c d)) = d := by
  rcases max_choice a (max b (max c d)) with h | h
  · exact Or.inl h
  · rcases max_choice b (max c d) with h2 | h2
    · exact Or.inr (Or.inl (h.trans h2))
    · rcases max_choice c d with h3 | h3
      · exact Or.inr (Or.inr (Or.inl (h.trans (h2.trans h3))))
      · exact Or.inr (Or.inr (Or.inr (h.trans (h2.trans h3))))

lemma min3_first_iff {a b c : ℝ} : min a (min b c) = a ↔ a ≤ b ∧ a ≤ c := by
  rw [min_eq_left_iff, le_min_iff]

lemma min3_second_iff {a b c : ℝ} :
    (¬min a (min b c) = a ∧ min a (min b c) = b) ↔ b < a ∧ b ≤ c := by
  constructor
  · rintro ⟨hna, hb⟩
    have hba : b ≤ a := hb ▸ min_le_left a (min b c)
    have hbc : b ≤ c := by
      have := hb ▸ le_trans (min_le_right a (min b c)) (min_le_right b c)
      exact this
    refine ⟨lt_of_le_of_ne hba ?_, hbc⟩
    intro hE
    exact hna (hE ▸ hb)
  · rintro ⟨hba, hbc⟩
    have hmbc : min b c = b := min_eq_left hbc
    have hm : min a (min b c) = b := by
      rw [hmbc, min_eq_right hba.le]
    exact ⟨fun hE => absurd (hE ▸ hm : a = b) (ne_of_gt hba), hm⟩

lemma min3_third_iff {a b c : ℝ} :
    (¬min a (min b c) = a ∧ ¬min a (min b c) = b) ↔ c < a ∧ c < b := by
  constructor
  · rintro ⟨hna, hnb⟩
    have hm : min a (min b c) = c := by
      rcases min_choice a (min b c) with h | h
      · exact absurd h hna
      · rcases min_choice b c with h2 | h2
        · exact absurd (h.trans h2) hnb
        · exact h.trans h2
    constructor
    · exact lt_of_le_of_ne (hm ▸ min_le_left a (min b c)) fun hE => hna (hm.trans hE)
    · have hcb : c ≤ b := hm ▸ le_trans (min_le_right a (min b c)) (min_le_left b c)
      exact lt_of_le_of_ne hcb fun hE => hnb (hm.trans hE)
  · rintro ⟨hca, hcb⟩
    have hm : min a (min b c) = c := by
      rw [min_eq_right hcb.le, min_eq_right hca.le]
    exact ⟨fun hE => absurd (hm.symm.trans hE) (ne_of_lt hca),
           fun hE => absurd (hm.symm.trans hE) (ne_of_lt hcb)⟩

lemma govcase_aspect_iff {P Q : Prop} [Decidable P] [Decidable Q] :
    ((if P then GoverningCase.aspect
      else if Q then GoverningCase.location else GoverningCase.maximum) =
        GoverningCase.aspect) ↔ P := by
  split_ifs with h1 h2
  · simp [h1]
  · simp [h1, h2]
  · simp [h1, h2]

lemma govcase_location_iff {P Q : Prop} [Decidable P] [Decidable Q] :
    ((if P then GoverningCase.aspect
      else if Q then GoverningCase.location else GoverningCase.maximum) =
        GoverningCase.location) ↔ ¬P ∧ Q := by
  split_ifs with h1 h2
  · simp [h1]
  · simp [h1, h2]
  · simp [h1, h2]

lemma govcase_maximum_iff {P Q : Prop} [Decidable P] [Decidable Q] :
    ((if P then GoverningCase.aspect
      else if Q then GoverningCase.location else GoverningCase.maximum) =
        GoverningCase.maximum) ↔ ¬P ∧ ¬Q := by
  split_ifs with h1 h2
  · simp [h1]
  · simp [h1, h2]
  · simp [h1, h2]

/--
  C8 (corrected): whitney_stress_block_factor returns 0.85 for fc below or
  equal to 28, the linear interpolation 0.85 - 0.05 (fc - 28) / 7 for
  28 < fc up to and including 55, and exactly 0.65 only for fc strictly
  above 55; it never returns below 0.65, it is non-increasing, beta1 at 28
  is 0.85, beta1 at 40 is 107/140, and beta1 at 55 is 23/35 (not 0.65: the
  claim that beta1 equals 0.65 for every fc at or above 55 fails at 55).
-/
theorem C8_whitney_factor :
    (∀ fc : ℝ, fc ≤ 28 → whitney_stress_block_factor fc = 0.85) ∧
    (∀ fc : ℝ, 28 < fc → fc ≤ 55 →
      whitney_stress_block_factor fc = 0.85 - 0.05 * (fc - 28) / 7) ∧
    (∀ fc : ℝ, 55 < fc → whitney_stress_block_factor fc = 0.65) ∧
    (∀ fc : ℝ, 0.65 ≤ whitney_stress_block_factor fc) ∧
    (∀ fc1 fc2 : ℝ, fc1 ≤ fc2 →
      whitney_stress_block_factor fc2 ≤ whitney_stress_block_factor fc1) ∧
    whitney_stress_block_factor 28 = 0.85 ∧
    whitney_stress_block_factor 40 = 107 / 140 ∧
    whitney_stress_block_factor 55 = 23 / 35 := by
  refine ⟨fun fc h => whitney_low h, fun fc h1 h2 => whitney_mid h1 h2,
    fun fc h => whitney_high h, whitney_ge, fun a b h => whitney_antitone h,
    whitney_low (by norm_num), ?_, ?_⟩
  · rw [whitney_mid (by norm_num) (by norm_num)]; norm_num
  · rw [whitney_mid (by norm_num) (by norm_num)]; norm_num

/--
  C8 counterexample: at fc = 55 the function returns 23/35 (about 0.6571),
  not 0.65, refuting the claim that beta1 equals 0.65 for every fc at or
  above 55.
-/
theorem C8_whitney_factor_cex :
    whitney_stress_block_factor 55 ≠ 0.65 ∧
    whitney_stress_block_factor 55 = 23 / 35 := by
  rw [whitney_mid (by norm_num) (by norm_num)]
  norm_num

/-- C8 witness: the amended theorem applied at concrete strengths. -/
theorem C8_whitney_factor_witness :
    whitney_stress_block_factor 20 = 0.85 ∧
    whitney_stress_block_factor 40 = 0.85 - 0.05 * (40 - 28) / 7 ∧
    whitney_stress_block_factor 60 = 0.65 ∧
    0.65 ≤ whitney_stress_block_factor 33 ∧
    whitney_stress_block_factor 44 ≤ whitney_stress_block_factor 29 :=
  ⟨C8_whitney_factor.1 20 (by norm_num),
   C8_whitney_factor.2.1 40 (by norm_num) (by norm_num),
   C8_whitney_factor.2.2.1 60 (by norm_num),
   C8_whitney_factor.2.2.2.1 33,
   C8_whitney_factor.2.2.2.2.1 29 44 (by norm_num)⟩

/--
  C9 (corrected): minimum_flexural_reinforcement_aci318 returns the
  maximum of 1.4 b d / fy and sqrt(fc) b d / (4 fy) rounded to the nearest
  whole square millimetre (Python round(x, 0)); the pre-rounding value is
  exactly proportional to b d, so doubling b doubles it exactly, but the
  returned rounded value need not double exactly.
-/
theorem C9_minimum_reinforcement (b d fc fy : ℝ)
    (hb : 0 < b) (hd : 0 < d) (hfc : 0 ≤ fc) (hfy : 0 < fy) :
    minimum_flexural_reinforcement_aci318 b d fc fy
      = pyRoundTo (max (1.4 * b * d / fy) (Real.sqrt fc * b * d / (4 * fy))) 0 ∧
    max (1.4 * (2 * b) * d / fy) (Real.sqrt fc * (2 * b) * d / (4 * fy))
      = 2 * max (1.4 * b * d / fy) (Real.sqrt fc * b * d / (4 * fy)) := by
  constructor
  · rfl
  · have h1 : 1.4 * (2 * b) * d / fy = 2 * (1.4 * b * d / fy) := by ring
    have h2 : Real.sqrt fc * (2 * b) * d / (4 * fy)
        = 2 * (Real.sqrt fc * b * d / (4 * fy)) := by ring
    rw [h1, h2]
    exact (mul_max_of_nonneg _ _ (by norm_num : (0:ℝ) ≤ 2)).symm

/--
  C9 counterexample: at b = d = fy = 1, fc = 0, the function returns 1,
  not the unrounded maximum 1.4; and doubling b gives 3, not 2 times 1, so
  the returned value is not exactly proportional to b d.
-/
theorem C9_minimum_reinforcement_cex :
    minimum_flexural_reinforcement_aci318 1 1 0 1
        ≠ max (1.4 * 1 * 1 / 1) (Real.sqrt 0 * 1 * 1 / (4 * 1)) ∧
    minimum_flexural_reinforcement_aci318 2 1 0 1
        ≠ 2 * minimum_flexural_reinforcement_aci318 1 1 0 1 := by
  have e1 : minimum_flexural_reinforcement_aci318 1 1 0 1 = 1 := by
    unfold minimum_flexural_reinforcement_aci318
    refine pyRoundTo_eval_low _ 1.4 _ _ 1 ?_ (by norm_num) (by norm_num) (by norm_num)
    rw [Real.sqrt_zero]
    norm_num
  have e2 : minimum_flexural_reinforcement_aci318 2 1 0 1 = 3 := by
    unfold minimum_flexural_reinforcement_aci318
    refine pyRoundTo_eval_high _ 2.8 _ _ 2 ?_ (by norm_num) (by norm_num) (by norm_num)
    rw [Real.sqrt_zero]
    norm_num
  rw [e1, e2, Real.sqrt_zero]
  norm_num

/-- C9 witness: the amended theorem applied at b = d = 1, fc = 4, fy = 2. -/
theorem C9_minimum_reinforcement_witness :
    (0:ℝ) < 1 ∧ (0:ℝ) ≤ 4 ∧ (0:ℝ) < 2 ∧
    (minimum_flexural_reinforcement_aci318 1 1 4 2
        = pyRoundTo (max (1.4 * 1 * 1 / 2) (Real.sqrt 4 * 1 * 1 / (4 * 2))) 0 ∧
     max (1.4 * (2 * 1) * 1 / 2) (Real.sqrt 4 * (2 * 1) * 1 / (4 * 2))
        = 2 * max (1.4 * 1 * 1 / 2) (Real.sqrt 4 * 1 * 1 / (4 * 2))) :=
  ⟨by norm_num, by norm_num, by norm_num,
   C9_minimum_reinforcement 1 1 4 2 (by norm_num) (by norm_num) (by norm_num)
     (by norm_num)⟩

/--
  C3 (corrected): punching_shear_strength_aci318 returns as Vc_governing
  the minimum of the three candidate strengths rounded to the nearest
  Newton (Python round(x, 0)), and records the governing candidate by
  comparing the pre-rounding values, ties resolving to the first of
  Vc1, Vc2, Vc3 in that order: aspect governs iff Vc1 is minimal, location
  governs iff Vc2 is strictly below Vc1 and at most Vc3, maximum governs
  iff Vc3 is strictly below both.
-/
theorem C3_punching_strength (bo d fc beta_c alpha_s lam : ℝ)
    (hbo : 0 < bo) (hd : 0 < d) (hfc : 0 ≤ fc) (hbc : 0 < beta_c) :
    (punching_shear_strength_aci318 bo d fc beta_c alpha_s lam).Vc_governing
      = pyRoundTo (min (specVc1 bo d fc beta_c lam)
          (min (specVc2 bo d fc alpha_s lam) (specVc3 bo d fc lam))) 0 ∧
    ((punching_shear_strength_aci318 bo d fc beta_c alpha_s lam).governing_case
        = GoverningCase.aspect ↔
      specVc1 bo d fc beta_c lam ≤ specVc2 bo d fc alpha_s lam ∧
      specVc1 bo d fc beta_c lam ≤ specVc3 bo d fc lam) ∧
    ((punching_shear_strength_aci318 bo d fc beta_c alpha_s lam).governing_case
        = GoverningCase.location ↔
      specVc2 bo d fc alpha_s lam < specVc1 bo d fc beta_c lam ∧
      specVc2 bo d fc alpha_s lam ≤ specVc3 bo d fc lam) ∧
    ((punching_shear_strength_aci318 bo d fc beta_c alpha_s lam).governing_case
        = GoverningCase.maximum ↔
      specVc3 bo d fc lam < specVc1 bo d fc beta_c lam ∧
      specVc3 bo d fc lam < specVc2 bo d fc alpha_s lam) := by
  unfold punching_shear_strength_aci318 specVc1 specVc2 specVc3
  refine ⟨rfl, ?_, ?_, ?_⟩
  · rw [govcase_aspect_iff, min3_first_iff]
  · rw [govcase_location_iff, min3_second_iff]
  · rw [govcase_maximum_iff, min3_third_iff]

/--
  C3 counterexample: at bo = d = fc = beta_c = lam = 1, alpha_s = 40, the
  three candidates are 1, 7 and 2/3, whose minimum is 2/3, but the
  returned Vc_governing is the rounded value 1, so the function does not
  return the exact minimum.
-/
theorem C3_punching_strength_cex :
    (punching_shear_strength_aci318 1 1 1 1 40 1).Vc_governing = 1 ∧
    min (specVc1 1 1 1 1 1) (min (specVc2 1 1 1 40 1) (specVc3 1 1 1 1)) = 2/3 ∧
    (1 : ℝ) ≠ 2/3 := by
  have hm : min (specVc1 1 1 1 1 1) (min (specVc2 1 1 1 40 1) (specVc3 1 1 1 1))
      = 2/3 := by
    unfold specVc1 specVc2 specVc3
    rw [Real.sqrt_one]
    norm_num [min_def]
  refine ⟨?_, hm, by norm_num⟩
  have e : (punching_shear_strength_aci318 1 1 1 1 40 1).Vc_governing
      = pyRoundTo (min (specVc1 1 1 1 1 1)
          (min (specVc2 1 1 1 40 1) (specVc3 1 1 1 1))) 0 := rfl
  rw [e]
  exact pyRoundTo_eval_high _ (2/3) _ _ 0 hm (by norm_num) (by norm_num) (by norm_num)

/--
  C3 witness: the amended theorem applied at bo = 6, d = 1, fc = 4,
  beta_c = 2, alpha_s = 40, lam = 1, where Vc1 and Vc3 tie at the minimum
  and the recorded case is aspect, the first in order.
-/
theorem C3_punching_strength_witness :
    (0:ℝ) < 6 ∧ (0:ℝ) < 1 ∧ (0:ℝ) ≤ 4 ∧ (0:ℝ) < 2 ∧
    ((punching_shear_strength_aci318 6 1 4 2 40 1).Vc_governing
      = pyRoundTo (min (specVc1 6 1 4 2 1)
          (min (specVc2 6 1 4 40 1) (specVc3 6 1 4 1))) 0 ∧
    ((punching_shear_strength_aci318 6 1 4 2 40 1).governing_case
        = GoverningCase.aspect ↔
      specVc1 6 1 4 2 1 ≤ specVc2 6 1 4 40 1 ∧ specVc1 6 1 4 2 1 ≤ specVc3 6 1 4 1) ∧
    ((punching_shear_strength_aci318 6 1 4 2 40 1).governing_case
        = GoverningCase.location ↔
      specVc2 6 1 4 40 1 < specVc1 6 1 4 2 1 ∧ specVc2 6 1 4 40 1 ≤ specVc3 6 1 4 1) ∧
    ((punching_shear_strength_aci318 6 1 4 2 40 1).governing_case
        = GoverningCase.maximum ↔
      specVc3 6 1 4 1 < specVc1 6 1 4 2 1 ∧ specVc3 6 1 4 1 < specVc2 6 1 4 40 1)) :=
  ⟨by norm_num, by norm_num, by norm_num, by norm_num,
   C3_punching_strength 6 1 4 2 40 1 (by norm_num) (by norm_num) (by norm_num)
     (by norm_num)⟩

/--
  C1 (confirmed): with the default factors, total_force_Z_dir_ultimate is
  the greatest element of the four-combination envelope 1.2D + 1.6L,
  1.2D + 1.6L + 0.5W, 1.2D + 1.0W + 1.0L and 0.9D + 1.0W, where D is the
  column dead load plus self weight plus surcharge; and for a physical
  load state (nonnegative dead-side loads and live load) with zero wind
  the result is exactly 1.2D + 1.6L.
-/
theorem C1_ultimate_envelope (st : PadFoundationACI318)
    (h1 : st.uls_strength_factor_dead = 1.2)
    (h2 : st.uls_strength_factor_live = 1.6)
    (h3 : st.uls_strength_factor_wind = 1.0)
    (h4 : st.uls_strength_factor_dead_min = 0.9) :
    IsGreatest { u : ℝ |
      u = 1.2 * (st.dead_axial_load + st.foundation_self_weight + st.surcharge_load)
            + 1.6 * st.live_axial_load ∨
      u = 1.2 * (st.dead_axial_load + st.foundation_self_weight + st.surcharge_load)
            + 1.6 * st.live_axial_load + 0.5 * st.wind_axial_load ∨
      u = 1.2 * (st.dead_axial_load + st.foundation_self_weight + st.surcharge_load)
            + 1.0 * st.wind_axial_load + 1.0 * st.live_axial_load ∨
      u = 0.9 * (st.dead_axial_load + st.foundation_self_weight + st.surcharge_load)
            + 1.0 * st.wind_axial_load } (total_force_Z_dir_ultimate st) ∧
    (st.wind_axial_load = 0 → 0 ≤ st.dead_axial_load →
     0 ≤ st.foundation_self_weight → 0 ≤ st.surcharge_load →
     0 ≤ st.live_axial_load →
     total_force_Z_dir_ultimate st
       = 1.2 * (st.dead_axial_load + st.foundation_self_weight + st.surcharge_load)
           + 1.6 * st.live_axial_load) := by
  simp only [total_force_Z_dir_ultimate]
  rw [h1, h2, h3, h4]
  constructor
  · constructor
    · simp only [Set.mem_setOf_eq]
      rcases max4_choice
        (1.2 * (st.dead_axial_load + (st.foundation_self_weight + st.surcharge_load))
          + 1.6 * st.live_axial_load)
        (1.2 * (st.dead_axial_load + (st.foundation_self_weight + st.surcharge_load))
          + 1.6 * st.live_axial_load + 0.5 * st.wind_axial_load)
        (1.2 * (st.dead_axial_load + (st.foundation_self_weight + st.surcharge_load))
          + 1.0 * st.wind_axial_load + 1.0 * st.live_axial_load)
        (0.9 * (st.dead_axial_load + (st.foundation_self_weight + st.surcharge_load))
          + 1.0 * st.wind_axial_load) with h | h | h | h
      · exact Or.inl (by rw [h]; ring)
      · exact Or.inr (Or.inl (by rw [h]; ring))
      · exact Or.inr (Or.inr (Or.inl (by rw [h]; ring)))
      · exact Or.inr (Or.inr (Or.inr (by rw [h]; ring)))
    · intro u hu
      simp only [Set.mem_setOf_eq] at hu
      rcases hu with h | h | h | h <;> rw [h]
      · exact le_trans (le_of_eq (by ring)) (le_max_left _ _)
      · exact le_trans (le_of_eq (by ring))
          (le_trans (le_max_left _ _) (le_max_right _ _))
      · exact le_trans (le_of_eq (by ring))
          (le_trans (le_trans (le_max_left _ _) (le_max_right _ _)) (le_max_right _ _))
      · exact le_trans (le_of_eq (by ring))
          (le_trans (le_trans (le_max_right _ _) (le_max_right _ _)) (le_max_right _ _))
  · intro hw hA hS hC hL
    rw [hw]
    rw [max_eq_left (max_le (le_of_eq (by ring))
      (max_le (by linarith) (by linarith)))]
    ring

/--
  C1 witness: the envelope theorem applied to the worked-example loaded
  state (dead 800, live 300, no wind, self weight 60, surcharge 78.75).
-/
theorem C1_ultimate_envelope_witness :
    exampleLoaded.uls_strength_factor_dead = 1.2 ∧
    exampleLoaded.uls_strength_factor_live = 1.6 ∧
    exampleLoaded.uls_strength_factor_wind = 1.0 ∧
    exampleLoaded.uls_strength_factor_dead_min = 0.9 ∧
    (IsGreatest { u : ℝ |
      u = 1.2 * (exampleLoaded.dead_axial_load + exampleLoaded.foundation_self_weight
            + exampleLoaded.surcharge_load) + 1.6 * exampleLoaded.live_axial_load ∨
      u = 1.2 * (exampleLoaded.dead_axial_load + exampleLoaded.foundation_self_weight
            + exampleLoaded.surcharge_load) + 1.6 * exampleLoaded.live_axial_load
            + 0.5 * exampleLoaded.wind_axial_load ∨
      u = 1.2 * (exampleLoaded.dead_axial_load + exampleLoaded.foundation_self_weight
            + exampleLoaded.surcharge_load) + 1.0 * exampleLoaded.wind_axial_load
            + 1.0 * exampleLoaded.live_axial_load ∨
      u = 0.9 * (exampleLoaded.dead_axial_load + exampleLoaded.foundation_self_weight
            + exampleLoaded.surcharge_load) + 1.0 * exampleLoaded.wind_axial_load }
      (total_force_Z_dir_ultimate exampleLoaded) ∧
    (exampleLoaded.wind_axial_load = 0 → 0 ≤ exampleLoaded.dead_axial_load →
     0 ≤ exampleLoaded.foundation_self_weight → 0 ≤ exampleLoaded.surcharge_load →
     0 ≤ exampleLoaded.live_axial_load →
     total_force_Z_dir_ultimate exampleLoaded
       = 1.2 * (exampleLoaded.dead_axial_load + exampleLoaded.foundation_self_weight
           + exampleLoaded.surcharge_load) + 1.6 * exampleLoaded.live_axial_load)) :=
  ⟨rfl, rfl, rfl, rfl, C1_ultimate_envelope exampleLoaded rfl rfl rfl rfl⟩

/--
  C4 (confirmed): on the repository worked example (2500 x 2500 x 400 pad,
  400 x 400 centred column, dead 800 kN, live 300 kN, no wind, soil depth
  700 mm, unit weights 18 and 24, soil capacity 200), the self weight is
  60 kN, the surcharge is 78.75 kN, the service load is 1238.75 kN, the
  ultimate load is 1606.5 kN and equals the 1.2D + 1.6L combination, the
  reported bearing pressure is 198.2 kN per square metre, the utilization
  is 0.991 and the bearing verdict is PASS.
-/
theorem C4_worked_example :
    exampleLoaded.foundation_self_weight = 60 ∧
    exampleLoaded.surcharge_load = 78.75 ∧
    total_force_Z_dir_service exampleLoaded = 1238.75 ∧
    total_force_Z_dir_ultimate exampleLoaded = 1606.5 ∧
    total_force_Z_dir_ultimate exampleLoaded
      = 1.2 * (exampleLoaded.dead_axial_load + exampleLoaded.foundation_self_weight
          + exampleLoaded.surcharge_load) + 1.6 * exampleLoaded.live_axial_load ∧
    (bearing_pressure_check_service exampleLoaded).bearing_pressure = 198.2 ∧
    (bearing_pressure_check_service exampleLoaded).utilization = 0.991 ∧
    (bearing_pressure_check_service exampleLoaded).check_status = CheckStatus.PASS := by
  have hsw : exampleLoaded.foundation_self_weight = 60 := by
    simp only [exampleLoaded, foundation_loads, exampleState]
    norm_num
  have hsur : exampleLoaded.surcharge_load = 78.75 := by
    simp only [exampleLoaded, foundation_loads, exampleState]
    norm_num
  have hserv : total_force_Z_dir_service exampleLoaded = 1238.75 := by
    simp only [total_force_Z_dir_service, exampleLoaded, foundation_loads, exampleState]
    norm_num
  have hult : total_force_Z_dir_ultimate exampleLoaded = 1606.5 := by
    simp only [total_force_Z_dir_ultimate, exampleLoaded, foundation_loads, exampleState]
    norm_num [max_def]
  have hbp : (bearing_pressure_check_service exampleLoaded).bearing_pressure = 198.2 := by
    simp only [bearing_pressure_check_service]
    refine pyRoundTo_eval_low _ 198.2 _ _ 19820 ?_ (by norm_num) (by norm_num) (by norm_num)
    rw [hserv]
    simp only [area_of_foundation, exampleLoaded, foundation_loads, exampleState]
    norm_num
  have hut : (bearing_pressure_check_service exampleLoaded).utilization = 0.991 := by
    simp only [bearing_pressure_check_service]
    refine pyRoundTo_eval_low _ 0.991 _ _ 991 ?_ (by norm_num) (by norm_num) (by norm_num)
    rw [hserv]
    simp only [area_of_foundation, exampleLoaded, foundation_loads, exampleState]
    norm_num
  have hst : (bearing_pressure_check_service exampleLoaded).check_status
      = CheckStatus.PASS := by
    simp only [bearing_pressure_check_service]
    split_ifs with h
    · rfl
    · exfalso
      apply h
      rw [hserv]
      simp only [area_of_foundation, exampleLoaded, foundation_loads, exampleState]
      norm_num
  refine ⟨hsw, hsur, hserv, hult, ?_, hbp, hut, hst⟩
  rw [hult, hsw, hsur]
  simp only [exampleLoaded, foundation_loads, exampleState]
  norm_num

/--
  C7 (confirmed): for positive footprint dimensions and a nonnegative
  total ultimate load, the one-way shear demand in each direction is zero
  whenever the critical section (column face plus effective depth) falls
  at or beyond the foundation edge, and the demand is never negative.
-/
theorem C7_one_way_demand_edge (st : PadFoundationACI318) (t fc : ℝ)
    (hL : 0 < st.foundation_length) (hW : 0 < st.foundation_width)
    (hT : 0 ≤ total_force_Z_dir_ultimate st) :
    (st.foundation_length ≤ st.col_pos_xdir + st.column_length / 2 + (t - 75 - 16 / 2) →
      (one_way_shear_x_direction st t fc).shear_force = 0) ∧
    0 ≤ (one_way_shear_x_direction st t fc).shear_force ∧
    (st.foundation_width ≤ st.col_pos_ydir + st.column_width / 2 + (t - 75 - 16 / 2) →
      (one_way_shear_y_direction st t fc).shear_force = 0) ∧
    0 ≤ (one_way_shear_y_direction st t fc).shear_force := by
  refine ⟨?_, ?_, ?_, ?_⟩
  · intro h
    simp only [one_way_shear_x_direction]
    rw [if_neg (not_lt.mpr h)]
  · simp only [one_way_shear_x_direction, area_of_foundation]
    split_ifs with h
    · refine mul_nonneg (mul_nonneg ?_ ?_) (by norm_num)
      · exact div_nonneg hT (div_nonneg (mul_nonneg hL.le hW.le) (by norm_num))
      · exact div_nonneg (mul_nonneg (by linarith) hW.le) (by norm_num)
    · exact le_refl 0
  · intro h
    simp only [one_way_shear_y_direction]
    rw [if_neg (not_lt.mpr h)]
  · simp only [one_way_shear_y_direction, area_of_foundation]
    split_ifs with h
    · refine mul_nonneg (mul_nonneg ?_ ?_) (by norm_num)
      · exact div_nonneg hT (div_nonneg (mul_nonneg hL.le hW.le) (by norm_num))
      · exact div_nonneg (mul_nonneg (by linarith) hL.le) (by norm_num)
    · exact le_refl 0

/--
  C7 witness: with a 3000 mm thickness the critical sections fall beyond
  the 2500 mm footprint of the zero-load example state, and the demands
  evaluate to zero.
-/
theorem C7_one_way_demand_edge_witness :
    (0:ℝ) < zeroLoadState.foundation_length ∧
    (0:ℝ) < zeroLoadState.foundation_width ∧
    0 ≤ total_force_Z_dir_ultimate zeroLoadState ∧
    (one_way_shear_x_direction zeroLoadState 3000 30).shear_force = 0 ∧
    0 ≤ (one_way_shear_y_direction zeroLoadState 3000 30).shear_force := by
  have hL : (0:ℝ) < zeroLoadState.foundation_length := by norm_num [zeroLoadState]
  have hW : (0:ℝ) < zeroLoadState.foundation_width := by norm_num [zeroLoadState]
  have hT : 0 ≤ total_force_Z_dir_ultimate zeroLoadState := by
    simp only [total_force_Z_dir_ultimate, zeroLoadState]
    norm_num
  have h := C7_one_way_demand_edge zeroLoadState 3000 30 hL hW hT
  exact ⟨hL, hW, hT, h.1 (by norm_num [zeroLoadState]), h.2.2.2⟩

/--
  C6 (code bug): at foundation_thickness = 83 the effective depth is 0, so
  every shear capacity is 0 and phi Vc = 0.  The punching check divides Vu
  by phi Vc with no guard, so the call raises ZeroDivisionError (modelled:
  none) instead of returning an infinite-ratio FAIL sentinel; and the
  guarded one-way check returns the infinite sentinel but with verdict
  PASS (0 demand against 0 capacity), not the FAIL the claim requires.
-/
theorem C6_shear_zero_capacity_bug :
    punching_shear_at_critical_section zeroLoadState 83 30 = none ∧
    (one_way_shear_x_direction zeroLoadState 83 30).design_strength = 0 ∧
    (one_way_shear_x_direction zeroLoadState 83 30).demand_over_capacity
      = RatioValue.infinite ∧
    (one_way_shear_x_direction zeroLoadState 83 30).check_status = CheckStatus.PASS := by
  have h00 : pyRoundTo (0:ℝ) 0 = 0 :=
    pyRoundTo_eval_low 0 0 0 0 0 rfl (by norm_num) (by norm_num) (by norm_num)
  have hT : total_force_Z_dir_ultimate zeroLoadState = 0 := by
    simp only [total_force_Z_dir_ultimate, zeroLoadState]
    norm_num
  refine ⟨?_, ?_, ?_, ?_⟩
  · simp only [punching_shear_at_critical_section, punching_shear_strength_aci318,
      critical_section_punching_aci318, area_of_foundation, zeroLoadState]
    norm_num [min_self, h00]
  · simp only [one_way_shear_x_direction, one_way_shear_strength_aci318,
      area_of_foundation, zeroLoadState]
    norm_num [h00]
  · simp only [one_way_shear_x_direction, one_way_shear_strength_aci318,
      area_of_foundation, zeroLoadState]
    norm_num [h00]
  · simp only [one_way_shear_x_direction]
    rw [hT]
    simp only [one_way_shear_strength_aci318, area_of_foundation, zeroLoadState]
    norm_num [h00]

/--
  C5 (corrected): for positive b, d, fc, fy, phi, flexural_design_aci318
  never raises (always returns some result); the status is
  CompressionReinforcementRequired exactly when the discriminant is
  negative, ExceedsMaximumReinforcement exactly when the discriminant is
  nonnegative and the required ratio exceeds the maximum, and PASS
  otherwise.  When the discriminant is exactly zero the required ratio is
  0.85 fc / fy, which always exceeds the tension-controlled maximum, so
  the status is ExceedsMaximumReinforcement (an infeasibility result), not
  a success as the claim states.
-/
theorem C5_flexural_design (Mu b d fc fy phi : ℝ)
    (hb : 0 < b) (hd : 0 < d) (hfc : 0 < fc) (hfy : 0 < fy) (hphi : 0 < phi) :
    ∃ r, flexural_design_aci318 Mu b d fc fy phi = some r ∧
      (r.status = FlexStatus.CompressionReinforcementRequired ↔
        specDisc Mu b d fc phi < 0) ∧
      (r.status = FlexStatus.ExceedsMaximumReinforcement ↔
        0 ≤ specDisc Mu b d fc phi ∧
        specRhoMax d fc fy < specRho Mu b d fc fy phi) ∧
      (r.status = FlexStatus.PASS ↔
        0 ≤ specDisc Mu b d fc phi ∧
        specRho Mu b d fc fy phi ≤ specRhoMax d fc fy) ∧
      (specDisc Mu b d fc phi = 0 →
        r.rho_required = some (0.85 * fc / fy) ∧
        r.status = FlexStatus.ExceedsMaximumReinforcement) := by
  simp only [flexural_design_aci318]
  rw [if_neg hphi.ne', if_neg (mul_pos hb (pow_pos hd 2)).ne', if_neg hfy.ne',
      if_neg hd.ne', if_neg (mul_pos (by norm_num : (0:ℝ) < 0.85) hfc).ne']
  rw [show (1 - 2 * (Mu / phi / (b * d ^ 2)) / (0.85 * fc)) = specDisc Mu b d fc phi
        from rfl]
  rw [show (0.85 * fc / fy) * (1 - Real.sqrt (specDisc Mu b d fc phi))
        = specRho Mu b d fc fy phi from rfl]
  rw [show (0.85 * whitney_stress_block_factor fc * fc / fy *
        (d / (1 + 0.005 * 200000 / (0.003 * 200000))) / d) = specRhoMax d fc fy
        from rfl]
  by_cases h1 : specDisc Mu b d fc phi < 0
  · rw [if_pos h1]
    refine ⟨_, rfl, ?_, ?_, ?_, ?_⟩
    · exact ⟨fun _ => h1, fun _ => rfl⟩
    · exact ⟨fun hcon => FlexStatus.noConfusion hcon,
             fun hpa => absurd h1 (not_lt.mpr hpa.1)⟩
    · exact ⟨fun hcon => FlexStatus.noConfusion hcon,
             fun hpa => absurd h1 (not_lt.mpr hpa.1)⟩
    · intro h0
      rw [h0] at h1
      exact absurd h1 (lt_irrefl 0)
  · rw [if_neg h1]
    have h1' : 0 ≤ specDisc Mu b d fc phi := not_lt.mp h1
    have hρ0 : specDisc Mu b d fc phi = 0 →
        specRho Mu b d fc fy phi = 0.85 * fc / fy := by
      intro h0
      unfold specRho
      rw [h0, Real.sqrt_zero]
      ring
    have hmaxlt : specRhoMax d fc fy < 0.85 * fc / fy := by
      have hsimp : specRhoMax d fc fy
          = 0.85 * whitney_stress_block_factor fc * (3 / 8) * (fc / fy) := by
        unfold specRhoMax
        rw [show (1 + 0.005 * 200000 / (0.003 * 200000) : ℝ) = 8 / 3 by norm_num]
        field_simp
        ring
      have hq : 0 < fc / fy := div_pos hfc hfy
      have hmul : whitney_stress_block_factor fc * (fc / fy) ≤ 0.85 * (fc / fy) :=
        mul_le_mul_of_nonneg_right (whitney_le fc) hq.le
      have hfrac : (0.85 * fc / fy : ℝ) = 0.85 * (fc / fy) := by ring
      rw [hsimp, hfrac]
      calc 0.85 * whitney_stress_block_factor fc * (3 / 8) * (fc / fy)
          = (0.85 * (3 / 8)) * (whitney_stress_block_factor fc * (fc / fy)) := by
            ring
        _ ≤ (0.85 * (3 / 8)) * (0.85 * (fc / fy)) :=
            mul_le_mul_of_nonneg_left hmul (by norm_num)
        _ < 0.85 * (fc / fy) := by linarith [hq]
    by_cases h2 : specRho Mu b d fc fy phi > specRhoMax d fc fy
    · rw [if_pos h2]
      refine ⟨_, rfl, ?_, ?_, ?_, ?_⟩
      · exact ⟨fun hcon => FlexStatus.noConfusion hcon, fun hcc => absurd hcc h1⟩
      · exact ⟨fun _ => ⟨h1', h2⟩, fun _ => rfl⟩
      · exact ⟨fun hcon => FlexStatus.noConfusion hcon,
               fun hpa => absurd h2 (not_lt.mpr hpa.2)⟩
      · intro h0
        constructor
        · rw [hρ0 h0]
        · rfl
    · rw [if_neg h2]
      refine ⟨_, rfl, ?_, ?_, ?_, ?_⟩
      · exact ⟨fun hcon => FlexStatus.noConfusion hcon, fun hcc => absurd hcc h1⟩
      · exact ⟨fun hcon => FlexStatus.noConfusion hcon,
               fun hpa => absurd hpa.2 h2⟩
      · exact ⟨fun _ => ⟨h1', not_lt.mp h2⟩, fun _ => rfl⟩
      · intro h0
        exfalso
        apply h2
        rw [hρ0 h0]
        exact hmaxlt

/--
  C5 counterexample: at Mu = 8.5, b = d = fy = phi = 1, fc = 20 the
  discriminant is exactly zero, and the returned status is
  ExceedsMaximumReinforcement, not a success, refuting the claim that a
  zero discriminant yields a successful design.
-/
theorem C5_flexural_design_cex :
    (flexural_design_aci318 8.5 1 1 20 1 1).map (fun r => r.status)
      = some FlexStatus.ExceedsMaximumReinforcement ∧
    specDisc 8.5 1 1 20 1 = 0 ∧
    FlexStatus.ExceedsMaximumReinforcement ≠ FlexStatus.PASS := by
  have hdisc : specDisc 8.5 1 1 20 1 = 0 := by unfold specDisc; norm_num
  have hdisc' : (1 - 2 * ((8.5:ℝ) / 1 / (1 * 1 ^ 2)) / (0.85 * 20)) = 0 := by
    norm_num
  refine ⟨?_, hdisc, by simp⟩
  simp only [flexural_design_aci318]
  rw [hdisc', Real.sqrt_zero]
  split_ifs with g1 g2 g3 g4 g5
  · exact absurd g1 (by norm_num)
  · exact absurd g2 (by norm_num)
  · exact absurd g3 (by norm_num)
  · exact absurd g4 (lt_irrefl 0)
  · rfl
  · exfalso
    apply g5
    rw [whitney_low (by norm_num : (20:ℝ) ≤ 28)]
    norm_num

/-- C5 witness: the amended theorem applied at Mu = 0, where the design passes. -/
theorem C5_flexural_design_witness :
    (0:ℝ) < 1 ∧ (0:ℝ) < 20 ∧
    (∃ r, flexural_design_aci318 0 1 1 20 1 1 = some r ∧
      (r.status = FlexStatus.CompressionReinforcementRequired ↔
        specDisc 0 1 1 20 1 < 0) ∧
      (r.status = FlexStatus.ExceedsMaximumReinforcement ↔
        0 ≤ specDisc 0 1 1 20 1 ∧ specRhoMax 1 20 1 < specRho 0 1 1 20 1 1) ∧
      (r.status = FlexStatus.PASS ↔
        0 ≤ specDisc 0 1 1 20 1 ∧ specRho 0 1 1 20 1 1 ≤ specRhoMax 1 20 1) ∧
      (specDisc 0 1 1 20 1 = 0 →
        r.rho_required = some (0.85 * 20 / 1) ∧
        r.status = FlexStatus.ExceedsMaximumReinforcement)) :=
  ⟨by norm_num, by norm_num,
   C5_flexural_design 0 1 1 20 1 1 (by norm_num) (by norm_num) (by norm_num)
     (by norm_num) (by norm_num)⟩

lemma thin_fold : foundation_loads zeroLoadState 147 700 18 24 = thinLoaded := rfl

lemma ult_thin : total_force_Z_dir_ultimate thinLoaded = 120.96 := by
  simp only [total_force_Z_dir_ultimate, thinLoaded, foundation_loads, zeroLoadState]
  norm_num [max_def]

lemma serv_thin : total_force_Z_dir_service thinLoaded = 100.8 := by
  simp only [total_force_Z_dir_service, thinLoaded, foundation_loads, zeroLoadState]
  norm_num

lemma flex_thin_x :
    flexural_design_aci318 (100 * 1e6) thinLoaded.foundation_width
      (147 - 75 - 16 / 2) 25 420 0.9
      = some { status := FlexStatus.CompressionReinforcementRequired,
               area_of_steel := none, rho_required := none, rho_max := none,
               compression_steel_required := true } := by
  rw [show thinLoaded.foundation_width = (2500:ℝ) from rfl]
  simp only [flexural_design_aci318]
  split_ifs with g1 g2 g3 g4 g5 g6 g7
  · exact absurd g1 (by norm_num)
  · exact absurd g2 (by norm_num)
  · exact absurd g3 (by norm_num)
  · exact absurd g4 (by norm_num)
  · exact absurd g5 (by norm_num)
  · rfl
  · exact absurd (by norm_num) g6
  · exact absurd (by norm_num) g6

lemma flex_thin_y :
    flexural_design_aci318 (100 * 1e6) thinLoaded.foundation_length
      (147 - 75 - 16 - 16 / 2) 25 420 0.9
      = some { status := FlexStatus.CompressionReinforcementRequired,
               area_of_steel := none, rho_required := none, rho_max := none,
               compression_steel_required := true } := by
  rw [show thinLoaded.foundation_length = (2500:ℝ) from rfl]
  simp only [flexural_design_aci318]
  split_ifs with g1 g2 g3 g4 g5 g6 g7
  · exact absurd g1 (by norm_num)
  · exact absurd g2 (by norm_num)
  · exact absurd g3 (by norm_num)
  · exact absurd g4 (by norm_num)
  · exact absurd g5 (by norm_num)
  · rfl
  · exact absurd (by norm_num) g6
  · exact absurd (by norm_num) g6

lemma flex_thin_x80 :
    flexural_design_aci318 (100 * 1e6) thinLoaded.foundation_width
      (147 - 80 - 16 / 2) 25 420 0.9
      = some { status := FlexStatus.CompressionReinforcementRequired,
               area_of_steel := none, rho_required := none, rho_max := none,
               compression_steel_required := true } := by
  rw [show thinLoaded.foundation_width = (2500:ℝ) from rfl]
  simp only [flexural_design_aci318]
  split_ifs with g1 g2 g3 g4 g5 g6 g7
  · exact absurd g1 (by norm_num)
  · exact absurd g2 (by norm_num)
  · exact absurd g3 (by norm_num)
  · exact absurd g4 (by norm_num)
  · exact absurd g5 (by norm_num)
  · rfl
  · exact absurd (by norm_num) g6
  · exact absurd (by norm_num) g6

lemma flex_thin_y80 :
    flexural_design_aci318 (100 * 1e6) thinLoaded.foundation_length
      (147 - 80 - 16 - 16 / 2) 25 420 0.9
      = some { status := FlexStatus.CompressionReinforcementRequired,
               area_of_steel := none, rho_required := none, rho_max := none,
               compression_steel_required := true } := by
  rw [show thinLoaded.foundation_length = (2500:ℝ) from rfl]
  simp only [flexural_design_aci318]
  split_ifs with g1 g2 g3 g4 g5 g6 g7
  · exact absurd g1 (by norm_num)
  · exact absurd g2 (by norm_num)
  · exact absurd g3 (by norm_num)
  · exact absurd g4 (by norm_num)
  · exact absurd g5 (by norm_num)
  · rfl
  · exact absurd (by norm_num) g6
  · exact absurd (by norm_num) g6

lemma Vcg_thin :
    (punching_shear_strength_aci318
      (critical_section_punching_aci318 thinLoaded.column_length
        thinLoaded.column_width (147 - 75 - 16 / 2)).perimeter
      (147 - 75 - 16 / 2) 25
      (max thinLoaded.column_length thinLoaded.column_width /
        min thinLoaded.column_length thinLoaded.column_width)
      40 1).Vc_governing = 334507 := by
  rw [show thinLoaded.column_length = (400:ℝ) from rfl,
      show thinLoaded.column_width = (400:ℝ) from rfl]
  rw [show (critical_section_punching_aci318 400 400 (147 - 75 - 16 / 2)).perimeter
        = (1856:ℝ) from by simp only [critical_section_punching_aci318]; norm_num]
  rw [show (max (400:ℝ) 400 / min 400 400) = 1 from by
        rw [max_self, min_self]; norm_num]
  simp only [punching_shear_strength_aci318]
  refine pyRoundTo_eval_high _ (29102080/87) _ _ 334506 ?_ (by norm_num)
    (by norm_num) (by norm_num)
  rw [sqrt_twentyfive]
  norm_num [min_def]

lemma punch_thin_isSome :
    (punching_shear_at_critical_section thinLoaded 147 25).isSome = true := by
  simp only [punching_shear_at_critical_section]
  rw [Vcg_thin, show thinLoaded.phi_shear = (0.75:ℝ) from rfl]
  rw [if_neg (by norm_num : ¬((0.75:ℝ) * 334507 = 0))]
  rfl

lemma punch_thin_status (pc : PunchingCheckResult)
    (h : punching_shear_at_critical_section thinLoaded 147 25 = some pc) :
    pc.check_status = CheckStatus.PASS := by
  simp only [punching_shear_at_critical_section] at h
  rw [Vcg_thin, show thinLoaded.phi_shear = (0.75:ℝ) from rfl] at h
  rw [if_neg (by norm_num : ¬((0.75:ℝ) * 334507 = 0))] at h
  rw [← Option.some.inj h]
  show (if _ ≤ _ then CheckStatus.PASS else CheckStatus.FAIL) = CheckStatus.PASS
  split_ifs with hv
  · rfl
  · exfalso
    apply hv
    rw [ult_thin]
    norm_num [thinLoaded, foundation_loads, zeroLoadState, area_of_foundation,
      critical_section_punching_aci318]

lemma bear_thin :
    (bearing_pressure_check_service thinLoaded).check_status = CheckStatus.PASS := by
  simp only [bearing_pressure_check_service]
  split_ifs with h
  · rfl
  · exfalso
    apply h
    rw [serv_thin]
    simp only [area_of_foundation, thinLoaded, foundation_loads, zeroLoadState]
    norm_num

lemma owx_thin :
    (one_way_shear_x_direction thinLoaded 147 25).check_status = CheckStatus.PASS := by
  have hVc : one_way_shear_strength_aci318 thinLoaded.foundation_width
      (147 - 75 - 16 / 2) 25 1 = 136000 := by
    unfold one_way_shear_strength_aci318
    refine pyRoundTo_eval_low _ 136000 _ _ 136000 ?_ (by norm_num) (by norm_num)
      (by norm_num)
    rw [sqrt_twentyfive, show thinLoaded.foundation_width = (2500:ℝ) from rfl]
    norm_num
  simp only [one_way_shear_x_direction]
  rw [ult_thin, hVc]
  norm_num [thinLoaded, foundation_loads, zeroLoadState, area_of_foundation]

lemma owy_thin :
    (one_way_shear_y_direction thinLoaded 147 25).check_status = CheckStatus.PASS := by
  have hVc : one_way_shear_strength_aci318 thinLoaded.foundation_length
      (147 - 75 - 16 / 2) 25 1 = 136000 := by
    unfold one_way_shear_strength_aci318
    refine pyRoundTo_eval_low _ 136000 _ _ 136000 ?_ (by norm_num) (by norm_num)
      (by norm_num)
    rw [sqrt_twentyfive, show thinLoaded.foundation_length = (2500:ℝ) from rfl]
    norm_num
  simp only [one_way_shear_y_direction]
  rw [ult_thin, hVc]
  norm_num [thinLoaded, foundation_loads, zeroLoadState, area_of_foundation]

lemma pad_thin75_isSome :
    (padFoundationDesignACI318 zeroLoadState 25 420 147 700 75 16 16).isSome
      = true := by
  simp only [padFoundationDesignACI318]
  rw [thin_fold, flex_thin_x, flex_thin_y]
  simp only [Option.some_bind]
  obtain ⟨pc, hpc⟩ := Option.isSome_iff_exists.mp punch_thin_isSome
  rw [hpc]
  rfl

lemma pad_thin80_isSome :
    (padFoundationDesignACI318 zeroLoadState 25 420 147 700 80 16 16).isSome
      = true := by
  simp only [padFoundationDesignACI318]
  rw [thin_fold, flex_thin_x80, flex_thin_y80]
  simp only [Option.some_bind]
  obtain ⟨pc, hpc⟩ := Option.isSome_iff_exists.mp punch_thin_isSome
  rw [hpc]
  rfl

/--
  C2 counterexample: on the 2500 x 2500 pad with zero column loads,
  thickness 147 mm, fc = 25, fy = 420, the report marks the foundation
  adequate (bearing, punching and both one-way checks PASS) even though
  the x-direction flexural design fails with
  CompressionReinforcementRequired, so the overall adequacy boolean is not
  the AND of all individual checks including flexure.
-/
theorem C2_overall_adequacy_cex :
    (padFoundationDesignACI318 zeroLoadState 25 420 147 700 75 16 16).map
      (fun r => (r.foundation_adequate, r.flexural_x.status))
      = some (true, FlexStatus.CompressionReinforcementRequired) := by
  simp only [padFoundationDesignACI318]
  rw [thin_fold, flex_thin_x, flex_thin_y]
  simp only [Option.some_bind]
  obtain ⟨pc, hpc⟩ := Option.isSome_iff_exists.mp punch_thin_isSome
  rw [hpc]
  simp only [Option.some_bind, Option.map_some']
  have hpcs := punch_thin_status pc hpc
  rw [bear_thin, hpcs, owx_thin, owy_thin]
  rfl

/--
  C2 (corrected): the overall adequacy boolean of the design report is the
  AND of exactly four verdicts: bearing pressure, punching shear and the
  two one-way shear checks; the flexural statuses are not part of it.
-/
theorem C2_overall_adequacy (st : PadFoundationACI318)
    (cg sg t sd cov dx1 dy1 : ℝ) :
    (padFoundationDesignACI318 st cg sg t sd cov dx1 dy1).map
      (fun r => r.foundation_adequate)
      = (padFoundationDesignACI318 st cg sg t sd cov dx1 dy1).map
        (fun r => decide (r.bearing.check_status = CheckStatus.PASS ∧
            r.punching.check_status = CheckStatus.PASS ∧
            r.one_way_x.check_status = CheckStatus.PASS ∧
            r.one_way_y.check_status = CheckStatus.PASS)) := by
  simp only [padFoundationDesignACI318]
  cases hfx : flexural_design_aci318 (100 * 1e6)
      (foundation_loads st t sd 18 24).foundation_width (t - cov - dx1 / 2) cg sg 0.9 with
  | none => rfl
  | some fx =>
    cases hfy : flexural_design_aci318 (100 * 1e6)
        (foundation_loads st t sd 18 24).foundation_length
        (t - cov - dy1 - dx1 / 2) cg sg 0.9 with
    | none => rfl
    | some fy =>
      cases hpc : punching_shear_at_critical_section (foundation_loads st t sd 18 24)
          t cg with
      | none => rfl
      | some pc => rfl

lemma punching_critical_section_eq (st : PadFoundationACI318) (t fc : ℝ)
    (pc : PunchingCheckResult)
    (h : punching_shear_at_critical_section st t fc = some pc) :
    pc.critical_section
      = critical_section_punching_aci318 st.column_length st.column_width
          (t - 75 - 16 / 2) := by
  simp only [punching_shear_at_critical_section] at h
  by_cases hz : st.phi_shear * (punching_shear_strength_aci318
      (critical_section_punching_aci318 st.column_length st.column_width
        (t - 75 - 16 / 2)).perimeter (t - 75 - 16 / 2) fc
      (max st.column_length st.column_width / min st.column_length st.column_width)
      40 1).Vc_governing = 0
  · rw [if_pos hz] at h
    simp at h
  · rw [if_neg hz] at h
    rw [← Option.some.inj h]

/--
  C10 (confirmed): whenever two design invocations differ only in
  steel_cover and the bar diameters (and both succeed), the punching,
  one-way shear and bearing parts of their reports coincide: those checks
  use the fixed effective depth thickness - 75 - 16/2 (cover 75 mm, bar
  16 mm).  The one-way critical sections sit at column face plus that
  fixed depth and the punching critical section at half of it from the
  column face; the cover and bar-diameter arguments only enter the
  flexural effective depths.
-/
theorem C10_shear_depth_fixed (st : PadFoundationACI318)
    (cg sg t sd c1 dx1 dy1 c2 dx2 dy2 : ℝ)
    (h1 : (padFoundationDesignACI318 st cg sg t sd c1 dx1 dy1).isSome = true)
    (h2 : (padFoundationDesignACI318 st cg sg t sd c2 dx2 dy2).isSome = true) :
    (padFoundationDesignACI318 st cg sg t sd c1 dx1 dy1).map
        (fun r => (r.punching, r.one_way_x, r.one_way_y, r.bearing))
      = (padFoundationDesignACI318 st cg sg t sd c2 dx2 dy2).map
        (fun r => (r.punching, r.one_way_x, r.one_way_y, r.bearing)) ∧
    (padFoundationDesignACI318 st cg sg t sd c1 dx1 dy1).map
        (fun r => r.one_way_x.critical_location)
      = some (st.col_pos_xdir + st.column_length / 2 + (t - 75 - 16 / 2)) ∧
    (padFoundationDesignACI318 st cg sg t sd c1 dx1 dy1).map
        (fun r => r.one_way_y.critical_location)
      = some (st.col_pos_ydir + st.column_width / 2 + (t - 75 - 16 / 2)) ∧
    (padFoundationDesignACI318 st cg sg t sd c1 dx1 dy1).map
        (fun r => r.punching.critical_section.distance_from_face)
      = some ((t - 75 - 16 / 2) / 2) := by
  simp only [padFoundationDesignACI318] at h1 h2 ⊢
  cases hfx1 : flexural_design_aci318 (100 * 1e6)
      (foundation_loads st t sd 18 24).foundation_width (t - c1 - dx1 / 2) cg sg 0.9 with
  | none =>
    rw [hfx1] at h1
    simp at h1
  | some fx1 =>
    rw [hfx1] at h1
    cases hfy1 : flexural_design_aci318 (100 * 1e6)
        (foundation_loads st t sd 18 24).foundation_length
        (t - c1 - dy1 - dx1 / 2) cg sg 0.9 with
    | none =>
      rw [hfy1] at h1
      simp at h1
    | some fy1 =>
      rw [hfy1] at h1
      cases hfx2 : flexural_design_aci318 (100 * 1e6)
          (foundation_loads st t sd 18 24).foundation_width (t - c2 - dx2 / 2) cg sg 0.9 with
      | none =>
        rw [hfx2] at h2
        simp at h2
      | some fx2 =>
        rw [hfx2] at h2
        cases hfy2 : flexural_design_aci318 (100 * 1e6)
            (foundation_loads st t sd 18 24).foundation_length
            (t - c2 - dy2 - dx2 / 2) cg sg 0.9 with
        | none =>
          rw [hfy2] at h2
          simp at h2
        | some fy2 =>
          cases hpc : punching_shear_at_critical_section (foundation_loads st t sd 18 24)
              t cg with
          | none =>
            rw [hpc] at h1
            simp at h1
          | some pc =>
            refine ⟨rfl, ?_, ?_, ?_⟩
            · simp only [Option.some_bind, Option.map_some',
                one_way_shear_x_direction, foundation_loads]
            · simp only [Option.some_bind, Option.map_some',
                one_way_shear_y_direction, foundation_loads]
            · simp only [Option.some_bind, Option.map_some']
              rw [punching_critical_section_eq (foundation_loads st t sd 18 24) t cg pc hpc]
              simp only [critical_section_punching_aci318]

/--
  C10 witness: two successful design invocations on the thin example pad
  differing only in cover (75 versus 80) share identical punching, one-way
  and bearing results, and the x one-way critical section sits at column
  face plus the fixed effective depth 147 - 75 - 16/2.
-/
theorem C10_shear_depth_fixed_witness :
    (padFoundationDesignACI318 zeroLoadState 25 420 147 700 75 16 16).isSome = true ∧
    (padFoundationDesignACI318 zeroLoadState 25 420 147 700 80 16 16).isSome = true ∧
    (padFoundationDesignACI318 zeroLoadState 25 420 147 700 75 16 16).map
        (fun r => (r.punching, r.one_way_x, r.one_way_y, r.bearing))
      = (padFoundationDesignACI318 zeroLoadState 25 420 147 700 80 16 16).map
        (fun r => (r.punching, r.one_way_x, r.one_way_y, r.bearing)) ∧
    (padFoundationDesignACI318 zeroLoadState 25 420 147 700 75 16 16).map
        (fun r => r.one_way_x.critical_location)
      = some (zeroLoadState.col_pos_xdir + zeroLoadState.column_length / 2
          + (147 - 75 - 16 / 2)) :=
  ⟨pad_thin75_isSome, pad_thin80_isSome,
   (C10_shear_depth_fixed zeroLoadState 25 420 147 700 75 16 16 80 16 16
      pad_thin75_isSome pad_thin80_isSome).1,
   (C10_shear_depth_fixed zeroLoadState 25 420 147 700 75 16 16 80 16 16
      pad_thin75_isSome pad_thin80_isSome).2.1⟩
